import Mathlib

/-!
Verification of `specification/scripts/check_spec_links.py` (the OpenXR
registry-specific layer of the spec-link checker) and of
`src/conformance/framework/pbr/check-offsets.py` (the GLSL reflection-data
offset checker), as shallow embeddings in Lean.

The base `spec_tools` classes (`EntityDatabase`, `MacroCheckerFile`,
`MacroChecker`, `MessageId`) are not part of this repository snapshot; where
the source calls into them, the corresponding Lean definitions are modelled
from the specification and carry a doc comment saying so.
-/

set_option autoImplicit false

namespace CheckSpecLinks

/-- Diagnostic message kinds.  `REFPAGE_BLOCK`, `REFPAGE_MISSING` and
`LEGACY` are the members named by the source file; the remaining members are
modelled from the spec: the shared `MessageId` catalog (`spec_tools.shared`,
not under src) is described as a fixed enumerated catalog of finding kinds,
including kinds for unresolvable references and wrong-kind references. -/
inductive MessageId where
  | REFPAGE_BLOCK
  | REFPAGE_MISSING
  | LEGACY
  | BAD_ENTITY
  | WRONG_MACRO
  | MISSING_TEXT
  deriving DecidableEq, Fintype, Repr

/-- The configuration constant `EXTRA_DEFINES` from the source: names not
mentioned in the registry XML. -/
def EXTRA_DEFINES : List String :=
  ["XRAPI_ATTR", "XRAPI_CALL", "XRAPI_PTR", "XR_NO_STDINT_H"]

/-- The configuration constant `SYSTEM_TYPES` from the source (a Python
`set`, embedded as the list of its distinct elements). -/
def SYSTEM_TYPES : List String :=
  ["void", "char", "float", "size_t",
   "intptr_t", "uintptr_t",
   "int8_t", "uint8_t",
   "int16_t", "uint16_t",
   "int32_t", "uint32_t",
   "int64_t", "uint64_t"]

/-- The configuration constant `DEFAULT_DISABLED_MESSAGES` from the source. -/
def DEFAULT_DISABLED_MESSAGES : Finset MessageId := {MessageId.REFPAGE_MISSING}

/-- An entity record of the entity database (spec §3: name, the markup kind
used to reference it, category, and whether it generates a ref page). -/
structure Entity where
  name : String
  kind : String
  category : String
  generates : Bool
  deriving DecidableEq, Repr

/-- A kind-to-categories registration made by `addMacro` (spec §3
Category-to-kind registration). -/
structure KindEntry where
  kind : String
  categories : List String
  link : Bool
  deriving DecidableEq, Repr

/-- The entity database state (spec §4.1): registered link-kind entries and
registered entities. -/
structure EntityDatabase where
  kindEntries : List KindEntry := []
  entities : List Entity := []
  deriving DecidableEq, Repr

/-- Modelled from the spec: `EntityDatabase.addMacro` (base class, not under
src) registers that a markup kind is the valid way to reference entities in
any of the given categories. -/
def addMacro (db : EntityDatabase) (kind : String) (categories : List String)
    (link : Bool) : EntityDatabase :=
  { db with kindEntries := db.kindEntries ++ [⟨kind, categories, link⟩] }

/-- Modelled from the spec: `EntityDatabase.addEntity` (base class, not under
src) registers an entity, failing (logged, not fatal — a no-op on the data)
if the name is already registered with a conflicting category. -/
def addEntity (db : EntityDatabase) (name kind category : String)
    (generates : Bool) : EntityDatabase :=
  if db.entities.any (fun e => decide (e.name = name ∧ e.category ≠ category)) then
    db
  else
    { db with entities := db.entities ++ [⟨name, kind, category, generates⟩] }

/-- The markup kinds registered as valid for a category. -/
def kindsForCategory (db : EntityDatabase) (cat : String) : List String :=
  (db.kindEntries.filter (fun m => m.categories.contains cat)).map (fun m => m.kind)

/-- `XREntityDatabase.getSystemTypes` from the source: returns the constant
`SYSTEM_TYPES`, ignoring the database (and hence the registry) entirely. -/
def getSystemTypes (_db : EntityDatabase) : List String := SYSTEM_TYPES

/-- `XREntityDatabase.populateMacros` from the source: registers `elink` for
the `enums` and `flags` categories and `basetype` for `basetypes`, both as
links. -/
def populateMacros (db : EntityDatabase) : EntityDatabase :=
  addMacro (addMacro db "elink" ["enums", "flags"] true) "basetype" ["basetypes"] true

/-- `XREntityDatabase.populateEntities` from the source: adds each extra
define with kind `dlink`, category `configdefines`, `generates=False`. -/
def populateEntities (db : EntityDatabase) : EntityDatabase :=
  EXTRA_DEFINES.foldl (fun d name => addEntity d name "dlink" "configdefines" false) db

/-- The registry element information consumed by `handleType`: the value of
the element's `category` attribute (`info.elem.get('category')`, `None` when
absent). -/
structure TypeInfo where
  elemCategory : Option String
  deriving DecidableEq, Repr

/-- Modelled from the spec: the base-class `EntityDatabase.handleType` (not
under src) derives the category from the declared type category and registers
the entity with the default type-link kind (`tlink`). -/
def superHandleType (db : EntityDatabase) (name : String) (info : TypeInfo)
    (_requires : Option String) : EntityDatabase :=
  addEntity db name "tlink" (info.elemCategory.getD "types") true

/-- `XREntityDatabase.handleType` from the source: bitmask-category types are
registered with kind `elink` under category `flags`; everything else goes to
the superclass implementation. -/
def handleType (db : EntityDatabase) (name : String) (info : TypeInfo)
    (requires : Option String) : EntityDatabase :=
  if info.elemCategory = some "bitmask" then
    addEntity db name "elink" "flags" true
  else
    superHandleType db name info requires

/-- Block types.  `REF_PAGE_LIKE` is the member named by the source; the
others are modelled from the spec's fixed set of structural block kinds. -/
inductive BlockType where
  | REF_PAGE_LIKE
  | CODE
  | BOX
  deriving DecidableEq, Repr

/-- A block on the block stack (spec §3): type, optional refpage entity name,
free-form context, and the delimiter that opened it. -/
structure Block where
  block_type : BlockType
  refpage : Option String
  context : Option String
  delimiter : Option String
  deriving DecidableEq, Repr

/-- A diagnostic record (spec §3): kind, message lines, optional group, and
the location (line number) it was emitted at. -/
structure Diagnostic where
  kind : MessageId
  messageLines : List String
  group : Option String
  line : Nat
  deriving DecidableEq, Repr

/-- The per-document scan state of `MacroCheckerFile` (spec §3
Reference-page context, §4.2 block stack), together with the diagnostic
stream produced so far and the current line number. -/
structure ScanState where
  diagnostics : List Diagnostic := []
  blocks : List Block := []
  current_ref_page : Option String := none
  prev_line_ref_page_tag : Option String := none
  in_ref_page : Bool := false
  line : Nat := 0
  deriving DecidableEq, Repr

/-- Modelled from the spec: `MacroCheckerFile.error` (base class, not under
src) appends one immutable diagnostic record — kind, message lines, optional
group, current location — to the document's diagnostic stream, and never
raises. -/
def error (st : ScanState) (kind : MessageId) (msgLines : List String)
    (group : Option String) : ScanState :=
  { st with diagnostics := st.diagnostics ++ [⟨kind, msgLines, group, st.line⟩] }

/-- Modelled from the spec: `MacroCheckerFile.pushBlock` (base class, not
under src) pushes a block with the given type, refpage, context and
delimiter onto the block stack. -/
def pushBlock (st : ScanState) (bt : BlockType)
    (refpage context delimiter : Option String) : ScanState :=
  { st with blocks := ⟨bt, refpage, context, delimiter⟩ :: st.blocks }

/-- Modelled from the spec: the base-class `MacroCheckerFile.processBlockOpen`
(not under src), spec §4.2 — a reference-page-like delimiter preceded by a
valid tag line pushes a block whose refpage is the tagged entity name, sets
`in_ref_page`, records the current ref page and consumes the pending tag; any
other block type is pushed unconditionally with no refpage. -/
def superProcessBlockOpen (st : ScanState) (bt : BlockType)
    (context delimiter : Option String) : ScanState :=
  if bt = BlockType.REF_PAGE_LIKE then
    match st.prev_line_ref_page_tag with
    | some tag =>
        let st1 := { st with current_ref_page := some tag,
                             in_ref_page := true,
                             prev_line_ref_page_tag := none }
        pushBlock st1 bt (some tag) context delimiter
    | none => pushBlock st bt none context delimiter
  else
    pushBlock st bt none context delimiter

/-- The placeholder entity name synthesized by the recovery branch of
`XRMacroCheckerFile.processBlockOpen`. -/
def missingRefpageTag : String := "?missing-refpage-tag?"

/-- The two message lines of the `REFPAGE_BLOCK` diagnostic emitted by the
recovery branch, verbatim from the source. -/
def refpageBlockMsg : List String :=
  ["Found a line containing only -- outside of a reference page block, not preceded by a reference page tag,",
   "Pretending there was one and opening refpage block for unknown entity anyway, for more readable messages."]

/-- `XRMacroCheckerFile.processBlockOpen` from the source: a
reference-page-like delimiter with no pending tag emits a `REFPAGE_BLOCK`
diagnostic, synthesizes the placeholder refpage, and pushes the block
manually; every other case goes to the superclass implementation. -/
def processBlockOpen (st : ScanState) (bt : BlockType)
    (context delimiter : Option String) : ScanState :=
  if bt = BlockType.REF_PAGE_LIKE ∧ st.prev_line_ref_page_tag = none then
    let st1 := error st MessageId.REFPAGE_BLOCK refpageBlockMsg none
    let st2 := { st1 with current_ref_page := some missingRefpageTag,
                          prev_line_ref_page_tag := none,
                          in_ref_page := true }
    pushBlock st2 bt st2.current_ref_page context delimiter
  else
    superProcessBlockOpen st bt context delimiter

/-- `XRMacroCheckerFile.computeExpectedRefPageFromInclude` from the source:
the identity mapping. -/
def computeExpectedRefPageFromInclude (entity : String) : String := entity

/-- Modelled from the spec: a classified document line as consumed by the
per-document scanner (§4.3) — a reference-page tag line carrying the tagged
entity name, a block delimiter line, or any other text line. -/
inductive Line where
  | tag (entity : String)
  | blockDelim (bt : BlockType) (d : String)
  | text (content : String)
  deriving DecidableEq, Repr

/-- Whether the block stack below the top still holds a reference-page
block. -/
def noRefpageBelow (rest : List Block) : Bool :=
  rest.all (fun b => b.refpage.isNone)

/-- Modelled from the spec: the per-document line scanner of
`MacroCheckerFile` (not under src), spec §4.2–§4.3.  A tag line records the
pending tag; a delimiter line matching the top of the stack closes that
block (clearing the ref-page context when the last reference-page block
closes); any other delimiter line opens a block through `processBlockOpen`;
after any non-tag line the pending tag is cleared. -/
def processLine (st : ScanState) (l : Line) : ScanState :=
  let st := { st with line := st.line + 1 }
  match l with
  | Line.tag e => { st with prev_line_ref_page_tag := some e }
  | Line.blockDelim bt d =>
      match st.blocks with
      | b :: rest =>
          if b.delimiter = some d then
            { st with blocks := rest,
                      in_ref_page :=
                        if b.refpage.isSome && noRefpageBelow rest then false
                        else st.in_ref_page,
                      current_ref_page :=
                        if b.refpage.isSome && noRefpageBelow rest then none
                        else st.current_ref_page,
                      prev_line_ref_page_tag := none }
          else
            let st1 := processBlockOpen st bt none (some d)
            { st1 with prev_line_ref_page_tag := none }
      | [] =>
          let st1 := processBlockOpen st bt none (some d)
          { st1 with prev_line_ref_page_tag := none }
  | Line.text _ => { st with prev_line_ref_page_tag := none }

/-- The checker configuration built by `makeMacroChecker`: the enabled
message set and the shared entity database. -/
structure Checker where
  enabled : Finset MessageId
  db : EntityDatabase

/-- Construction of the `XREntityDatabase`: the kind registrations of
`populateMacros`, the extra entities of `populateEntities`, and the registry
type declarations fed through `handleType`.  The registry contents are
passed as the list of its type declarations (spec §6: the core needs only an
abstract query surface over the registry). -/
def makeXREntityDatabase (registryTypes : List (String × TypeInfo)) : EntityDatabase :=
  registryTypes.foldl (fun d t => handleType d t.1 t.2 none)
    (populateEntities (populateMacros {}))

/-- `makeMacroChecker` from the source: creates a correctly-configured
checker from the enabled-message set and a fresh `XREntityDatabase` built
over the registry contents. -/
def makeMacroChecker (enabled_messages : Finset MessageId)
    (registryTypes : List (String × TypeInfo)) : Checker :=
  ⟨enabled_messages, makeXREntityDatabase registryTypes⟩

/-- Modelled from the spec: the per-document check — scan the lines
sequentially from a fresh scan state and return the diagnostics of enabled
kinds. -/
def checkFile (c : Checker) (doc : List Line) : List Diagnostic :=
  (doc.foldl processLine {}).diagnostics.filter (fun d => decide (d.kind ∈ c.enabled))

/-- `available_messages` as computed at startup in the source: all
`MessageId` values with the Vulkan-only `LEGACY` kind removed. -/
def availableMessages : Finset MessageId := Finset.univ.erase MessageId.LEGACY

/-- `default_enabled_messages` as computed at startup in the source: the
available set minus `DEFAULT_DISABLED_MESSAGES`. -/
def defaultEnabledMessages : Finset MessageId :=
  availableMessages \ DEFAULT_DISABLED_MESSAGES

end CheckSpecLinks

namespace CheckOffsets

/-- The reflection record parsed from one glslangValidator dump line
(`GlslObjectReflectionData` from check-offsets.py). -/
structure GlslObjectReflectionData where
  name : String
  offset : Int
  data_type : Int
  size : Int
  index : Int
  binding : Int
  stages : Int
  counter : Option Int := none
  num_members : Option Int := none
  array_stride : Option Int := none
  top_level_array_stride : Option Int := none
  deriving DecidableEq, Repr

/-- Python `str.strip()` (no argument): remove leading and trailing
whitespace characters. -/
def pyStrip (s : String) : String :=
  ⟨((s.toList.dropWhile Char.isWhitespace).reverse.dropWhile Char.isWhitespace).reverse⟩

/-- Python `str.partition(sep)`: the part before the first occurrence of the
separator, the separator itself, and the rest; `(s, '', '')` when the
separator does not occur. -/
def pyPartition (s sep : String) : String × String × String :=
  match s.splitOn sep with
  | [] => (s, "", "")
  | [x] => (x, "", "")
  | x :: xs => (x, sep, String.intercalate sep xs)

/-- Index of the first list element satisfying the predicate. -/
def findIdxAux (p : String → Bool) : List String → Option Nat
  | [] => none
  | a :: l => if p a then some 0 else (findIdxAux p l).map (· + 1)

/-- Python `list.index(x, start)`: the index of the first occurrence of `x`
at position `start` or later; `none` models the `ValueError` raised when
there is none. -/
def pyIndex (l : List String) (x : String) (start : Nat) : Option Nat :=
  (findIdxAux (fun y => y == x) (l.drop start)).map (· + start)

/-- Python slice `l[a : b]` for nonnegative bounds. -/
def pySlice {α : Type} (l : List α) (a b : Nat) : List α :=
  (l.drop a).take (b - a)

/-- Value of one hexadecimal digit. -/
def hexDigitVal? (c : Char) : Option Nat :=
  if c.isDigit then some (c.toNat - 48)
  else if 'a' ≤ c ∧ c ≤ 'f' then some (c.toNat - 87)
  else if 'A' ≤ c ∧ c ≤ 'F' then some (c.toNat - 55)
  else none

/-- Hexadecimal value of a nonempty digit string. -/
def hexNatOfChars? (cs : List Char) : Option Nat :=
  match cs with
  | [] => none
  | _ => cs.foldlM (fun acc c => (hexDigitVal? c).map (fun v => acc * 16 + v)) 0

/-- Drop an optional `0x` / `0X` prefix. -/
def dropHexPrefix (cs : List Char) : List Char :=
  match cs with
  | '0' :: 'x' :: rest => rest
  | '0' :: 'X' :: rest => rest
  | _ => cs

/-- Python `int(s, 16)`: optional sign, optional `0x` prefix, hex digits;
`none` models the `ValueError` on anything else. -/
def pyIntHex? (s : String) : Option Int :=
  match (pyStrip s).toList with
  | '-' :: rest => (hexNatOfChars? (dropHexPrefix rest)).map (fun n => -(n : Int))
  | cs => (hexNatOfChars? (dropHexPrefix cs)).map (fun n => (n : Int))

/-- Python `int(s)` on the decimal strings of the dump; `none` models the
`ValueError` on anything unparsable. -/
def pyInt? (s : String) : Option Int := (pyStrip s).toInt?

/-- Split one `key value` field into its two words; `none` models the
`ValueError` raised by `dict(...)` when a field does not split into exactly
two items. -/
def splitPair? (s : String) : Option (String × String) :=
  match s.splitOn " " with
  | [a, b] => some (a, b)
  | _ => none

/-- Insertion into a Python `dict` modelled as an ordered association list:
an existing key is overwritten in place, a new key is appended. -/
def dictInsert {α : Type} (m : List (String × α)) (k : String) (v : α) :
    List (String × α) :=
  if m.any (fun p => p.1 == k) then
    m.map (fun p => if p.1 == k then (k, v) else p)
  else m ++ [(k, v)]

/-- The field dictionary `dict(field.split(" ") for field in
all_fields.split(", "))`. -/
def buildFields? (parts : List String) : Option (List (String × String)) :=
  parts.foldlM (fun acc p => (splitPair? p).map (fun kv => dictInsert acc kv.1 kv.2)) []

/-- Lookup of an optional field followed by `int()` conversion when present
(`counter`, `numMembers`, `arrayStride`, `topLevelArrayStride`). -/
def optIntField? (fields : List (String × String)) (key : String) :
    Option (Option Int) :=
  match List.lookup key fields with
  | none => some none
  | some s => (pyInt? s).map some

/-- `parse_reflection_line` from check-offsets.py: split the stripped line at
`": "` into name and fields, build the field dictionary, and parse the six
always-printed fields plus the four optional ones; `none` models any raised
exception. -/
def parse_reflection_line (line : String) : Option GlslObjectReflectionData := do
  let parts := pyPartition (pyStrip line) ": "
  let name := parts.1
  let all_fields := parts.2.2
  let fields ← buildFields? (all_fields.splitOn ", ")
  let offset ← (List.lookup "offset" fields).bind pyInt?
  let data_type ← (List.lookup "type" fields).bind pyIntHex?
  let size ← (List.lookup "size" fields).bind pyInt?
  let index ← (List.lookup "index" fields).bind pyInt?
  let binding ← (List.lookup "binding" fields).bind pyInt?
  let stages ← (List.lookup "stages" fields).bind pyInt?
  let counter ← optIntField? fields "counter"
  let num_members ← optIntField? fields "numMembers"
  let array_stride ← optIntField? fields "arrayStride"
  let top_level_array_stride ← optIntField? fields "topLevelArrayStride"
  pure { name, offset, data_type, size, index, binding, stages,
         counter, num_members, array_stride, top_level_array_stride }

/-- Parse a list of section lines into the name-keyed dictionary
(`ret[data.name] = data` in insertion order); `none` models a parse
exception on any line. -/
def sectionDict (lines : List String) :
    Option (List (String × GlslObjectReflectionData)) :=
  lines.foldlM
    (fun acc line => (parse_reflection_line line).map (fun d => dictInsert acc d.name d)) []

/-- `process_reflection_data_section` from check-offsets.py: locate the
heading, locate the next empty line (absent for the last section), slice the
section lines — `[start_idx + 1 : end_idx - 1]` when an empty line was
found, everything after the heading otherwise — and parse them into a
dictionary. -/
def process_reflection_data_section (reflection_lines : List String)
    (heading : String) : Option (List (String × GlslObjectReflectionData)) := do
  let start_idx ← pyIndex reflection_lines heading 0
  let section_lines :=
    match pyIndex reflection_lines "" (start_idx + 1) with
    | some end_idx => pySlice reflection_lines (start_idx + 1) (end_idx - 1)
    | none => reflection_lines.drop (start_idx + 1)
  sectionDict section_lines

/-- The parsing part of `compile_and_get_reflection_data` from
check-offsets.py, taking the subprocess output as its list of raw lines:
strip each line (pyStrip), locate `"Uniform reflection:"` and the next empty line
(both raising — `none` — when absent), slice
`lines[start_uniform + 1 : end_uniform - 1]` and parse it into the uniforms
dictionary. -/
def compile_and_get_reflection_data (output_lines : List String) :
    Option (List (String × GlslObjectReflectionData)) := do
  let lines := output_lines.map pyStrip
  let start_uniform ← pyIndex lines "Uniform reflection:" 0
  let end_uniform ← pyIndex lines "" (start_uniform + 1)
  let uniform_lines := pySlice lines (start_uniform + 1) (end_uniform - 1)
  sectionDict uniform_lines

end CheckOffsets

namespace CheckSpecLinks

theorem addEntity_fresh (db : EntityDatabase) (name kind category : String)
    (generates : Bool) (h : ∀ e ∈ db.entities, e.name ≠ name) :
    addEntity db name kind category generates
      = { db with entities := db.entities ++ [⟨name, kind, category, generates⟩] } := by
  unfold addEntity
  rw [if_neg]
  simp only [List.any_eq_true, decide_eq_true_eq, not_exists]
  intro e
  rintro ⟨he, hn, -⟩
  exact h e he hn

/-- Claim C1: opening a REF_PAGE_LIKE block with no pending reference-page
tag emits exactly one REFPAGE_BLOCK diagnostic (appended to the stream — the
transition is total, so no exception is raised), pushes exactly one block
whose refpage is the placeholder sentinel `?missing-refpage-tag?`, and that
sentinel is not a member of SYSTEM_TYPES nor of EXTRA_DEFINES. -/
theorem processBlockOpen_untagged_refpage (st : ScanState)
    (context delimiter : Option String)
    (h : st.prev_line_ref_page_tag = none) :
    (processBlockOpen st BlockType.REF_PAGE_LIKE context delimiter).diagnostics
        = st.diagnostics ++ [⟨MessageId.REFPAGE_BLOCK, refpageBlockMsg, none, st.line⟩]
    ∧ (processBlockOpen st BlockType.REF_PAGE_LIKE context delimiter).blocks
        = ⟨BlockType.REF_PAGE_LIKE, some missingRefpageTag, context, delimiter⟩ :: st.blocks
    ∧ missingRefpageTag ∉ SYSTEM_TYPES
    ∧ missingRefpageTag ∉ EXTRA_DEFINES := by
  refine ⟨?_, ?_, by decide, by decide⟩ <;>
    simp [processBlockOpen, h, error, pushBlock]

/-- Witness for C1 at a concrete scan state. -/
theorem processBlockOpen_untagged_refpage_witness :
    ({} : ScanState).prev_line_ref_page_tag = none
    ∧ (processBlockOpen {} BlockType.REF_PAGE_LIKE none (some "--")).diagnostics
        = ({} : ScanState).diagnostics
          ++ [⟨MessageId.REFPAGE_BLOCK, refpageBlockMsg, none, ({} : ScanState).line⟩]
    ∧ (processBlockOpen {} BlockType.REF_PAGE_LIKE none (some "--")).blocks
        = ⟨BlockType.REF_PAGE_LIKE, some missingRefpageTag, none, some "--"⟩
            :: ({} : ScanState).blocks :=
  ⟨rfl, (processBlockOpen_untagged_refpage {} none (some "--") rfl).1,
        (processBlockOpen_untagged_refpage {} none (some "--") rfl).2.1⟩

/-- Claim C3: opening a REF_PAGE_LIKE block while a reference-page tag is
pending takes the standard (superclass) path, emits no diagnostic at all (in
particular no REFPAGE_BLOCK diagnostic), and pushes a block whose refpage is
the tagged entity name, not the placeholder sentinel. -/
theorem processBlockOpen_tagged_refpage (st : ScanState) (tag : String)
    (context delimiter : Option String)
    (h : st.prev_line_ref_page_tag = some tag) :
    processBlockOpen st BlockType.REF_PAGE_LIKE context delimiter
        = superProcessBlockOpen st BlockType.REF_PAGE_LIKE context delimiter
    ∧ (processBlockOpen st BlockType.REF_PAGE_LIKE context delimiter).diagnostics
        = st.diagnostics
    ∧ (processBlockOpen st BlockType.REF_PAGE_LIKE context delimiter).blocks
        = ⟨BlockType.REF_PAGE_LIKE, some tag, context, delimiter⟩ :: st.blocks := by
  refine ⟨?_, ?_, ?_⟩ <;>
    simp [processBlockOpen, superProcessBlockOpen, h, pushBlock]

/-- Witness for C3 at a concrete scan state carrying a pending tag. -/
theorem processBlockOpen_tagged_refpage_witness :
    ({ prev_line_ref_page_tag := some "xrCreateInstance" } : ScanState).prev_line_ref_page_tag
        = some "xrCreateInstance"
    ∧ (processBlockOpen { prev_line_ref_page_tag := some "xrCreateInstance" }
          BlockType.REF_PAGE_LIKE none (some "--")).blocks
        = [⟨BlockType.REF_PAGE_LIKE, some "xrCreateInstance", none, some "--"⟩] :=
  ⟨rfl, (processBlockOpen_tagged_refpage
          { prev_line_ref_page_tag := some "xrCreateInstance" }
          "xrCreateInstance" none (some "--") rfl).2.2⟩

/-- Claim C9: after the recovery branch of processBlockOpen the scan state
has `current_ref_page` equal to the placeholder sentinel, `in_ref_page` set,
and `prev_line_ref_page_tag` cleared — so a second untagged REF_PAGE_LIKE
delimiter takes the recovery branch again, emitting another REFPAGE_BLOCK
diagnostic rather than reusing stale tag state. -/
theorem processBlockOpen_recovery_state (st : ScanState)
    (context delimiter context2 delimiter2 : Option String)
    (h : st.prev_line_ref_page_tag = none) :
    (processBlockOpen st BlockType.REF_PAGE_LIKE context delimiter).current_ref_page
        = some missingRefpageTag
    ∧ (processBlockOpen st BlockType.REF_PAGE_LIKE context delimiter).in_ref_page = true
    ∧ (processBlockOpen st BlockType.REF_PAGE_LIKE context delimiter).prev_line_ref_page_tag
        = none
    ∧ (processBlockOpen (processBlockOpen st BlockType.REF_PAGE_LIKE context delimiter)
          BlockType.REF_PAGE_LIKE context2 delimiter2).diagnostics
        = (processBlockOpen st BlockType.REF_PAGE_LIKE context delimiter).diagnostics
          ++ [⟨MessageId.REFPAGE_BLOCK, refpageBlockMsg, none,
               (processBlockOpen st BlockType.REF_PAGE_LIKE context delimiter).line⟩] := by
  refine ⟨?_, ?_, ?_, ?_⟩
  · simp [processBlockOpen, h, error, pushBlock]
  · simp [processBlockOpen, h, error, pushBlock]
  · simp [processBlockOpen, h, error, pushBlock]
  · simp [processBlockOpen, h, error, pushBlock]

/-- Witness for C9 at a concrete scan state. -/
theorem processBlockOpen_recovery_state_witness :
    ({} : ScanState).prev_line_ref_page_tag = none
    ∧ (processBlockOpen {} BlockType.REF_PAGE_LIKE none (some "--")).current_ref_page
        = some missingRefpageTag
    ∧ (processBlockOpen {} BlockType.REF_PAGE_LIKE none (some "--")).in_ref_page = true :=
  ⟨rfl, (processBlockOpen_recovery_state {} none (some "--") none (some "--") rfl).1,
        (processBlockOpen_recovery_state {} none (some "--") none (some "--") rfl).2.1⟩

/-- Claim C2: a type declaration whose element category is `bitmask` is
registered under category `flags` with kind `elink` — the enumerant-link
kind that populateMacros registers for the `flags` category, and not the
default type-link kind `tlink` — while a declaration of any other category
is delegated to the superclass handler. -/
theorem handleType_bitmask_flags (db : EntityDatabase) (name : String)
    (info : TypeInfo) (requires : Option String) :
    (info.elemCategory = some "bitmask" →
       handleType db name info requires = addEntity db name "elink" "flags" true)
    ∧ (info.elemCategory = some "bitmask" →
       (∀ e ∈ db.entities, e.name ≠ name) →
       (handleType db name info requires).entities
          = db.entities ++ [⟨name, "elink", "flags", true⟩])
    ∧ "elink" ∈ kindsForCategory (populateMacros {}) "flags"
    ∧ "elink" ≠ "tlink"
    ∧ (info.elemCategory ≠ some "bitmask" →
       handleType db name info requires = superHandleType db name info requires) := by
  refine ⟨?_, ?_, by decide, by decide, ?_⟩
  · intro h; simp [handleType, h]
  · intro h hfresh
    simp [handleType, h, addEntity_fresh db name "elink" "flags" true hfresh]
  · intro h; simp [handleType, h]

/-- Witness for C2 at a concrete bitmask declaration on an empty database. -/
theorem handleType_bitmask_flags_witness :
    (⟨some "bitmask"⟩ : TypeInfo).elemCategory = some "bitmask"
    ∧ (handleType {} "XrSwapchainCreateFlags" ⟨some "bitmask"⟩ none).entities
        = ({} : EntityDatabase).entities
          ++ [⟨"XrSwapchainCreateFlags", "elink", "flags", true⟩] :=
  ⟨rfl, (handleType_bitmask_flags {} "XrSwapchainCreateFlags" ⟨some "bitmask"⟩ none).2.1
          rfl (by simp)⟩

/-- Claim C4: the default enabled diagnostic set equals all MessageId values
minus LEGACY and REFPAGE_MISSING, and LEGACY has been removed from the
available set itself. -/
theorem defaultEnabledMessages_eq :
    defaultEnabledMessages
        = Finset.univ \ {MessageId.LEGACY, MessageId.REFPAGE_MISSING}
    ∧ MessageId.LEGACY ∉ availableMessages := by decide

/-- Claim C5: getSystemTypes is independent of the database (hence of the
registry and any document input) and contains exactly the fourteen primitive
type names. -/
theorem getSystemTypes_fixed :
    (∀ db1 db2 : EntityDatabase, getSystemTypes db1 = getSystemTypes db2)
    ∧ (∀ (db : EntityDatabase) (s : String),
        s ∈ getSystemTypes db ↔
          (s = "void" ∨ s = "char" ∨ s = "float" ∨ s = "size_t" ∨
           s = "intptr_t" ∨ s = "uintptr_t" ∨ s = "int8_t" ∨ s = "uint8_t" ∨
           s = "int16_t" ∨ s = "uint16_t" ∨ s = "int32_t" ∨ s = "uint32_t" ∨
           s = "int64_t" ∨ s = "uint64_t")) := by
  refine ⟨fun _ _ => rfl, fun db s => ?_⟩
  simp [getSystemTypes, SYSTEM_TYPES]

/-- Claim C6: populateEntities adds exactly the four extra defines, each with
kind `dlink`, category `configdefines` and `generates = false`, and changes
nothing else in the database. -/
theorem populateEntities_extraDefines (db : EntityDatabase)
    (h : ∀ e ∈ db.entities, e.name ∉ EXTRA_DEFINES) :
    populateEntities db
      = { db with entities := db.entities ++
          [⟨"XRAPI_ATTR", "dlink", "configdefines", false⟩,
           ⟨"XRAPI_CALL", "dlink", "configdefines", false⟩,
           ⟨"XRAPI_PTR", "dlink", "configdefines", false⟩,
           ⟨"XR_NO_STDINT_H", "dlink", "configdefines", false⟩] } := by
  have hne : ∀ e ∈ db.entities,
      e.name ≠ "XRAPI_ATTR" ∧ e.name ≠ "XRAPI_CALL" ∧
      e.name ≠ "XRAPI_PTR" ∧ e.name ≠ "XR_NO_STDINT_H" := by
    intro e he
    have := h e he
    simp [EXTRA_DEFINES] at this
    exact this
  have h1 := addEntity_fresh db "XRAPI_ATTR" "dlink" "configdefines" false
    (fun e he => (hne e he).1)
  have h2 := addEntity_fresh { db with entities := db.entities ++
      [⟨"XRAPI_ATTR", "dlink", "configdefines", false⟩] }
    "XRAPI_CALL" "dlink" "configdefines" false (by
      intro e he
      rcases List.mem_append.1 he with h' | h'
      · exact (hne e h').2.1
      · simp at h'; subst h'; decide)
  have h3 := addEntity_fresh { db with entities := db.entities ++
      [⟨"XRAPI_ATTR", "dlink", "configdefines", false⟩,
       ⟨"XRAPI_CALL", "dlink", "configdefines", false⟩] }
    "XRAPI_PTR" "dlink" "configdefines" false (by
      intro e he
      rcases List.mem_append.1 he with h' | h'
      · exact (hne e h').2.2.1
      · simp at h'
        rcases h' with h' | h' <;> (subst h'; decide))
  have h4 := addEntity_fresh { db with entities := db.entities ++
      [⟨"XRAPI_ATTR", "dlink", "configdefines", false⟩,
       ⟨"XRAPI_CALL", "dlink", "configdefines", false⟩,
       ⟨"XRAPI_PTR", "dlink", "configdefines", false⟩] }
    "XR_NO_STDINT_H" "dlink" "configdefines" false (by
      intro e he
      rcases List.mem_append.1 he with h' | h'
      · exact (hne e h').2.2.2
      · simp at h'
        rcases h' with h' | h' | h' <;> (subst h'; decide))
  show List.foldl _ db EXTRA_DEFINES = _
  rw [show EXTRA_DEFINES
      = ["XRAPI_ATTR", "XRAPI_CALL", "XRAPI_PTR", "XR_NO_STDINT_H"] from rfl]
  simp only [List.foldl_cons, List.foldl_nil]
  rw [h1]
  rw [show (db.entities ++ [⟨"XRAPI_ATTR", "dlink", "configdefines", false⟩] : List Entity)
        ++ [⟨"XRAPI_CALL", "dlink", "configdefines", false⟩]
      = db.entities ++
        [⟨"XRAPI_ATTR", "dlink", "configdefines", false⟩,
         ⟨"XRAPI_CALL", "dlink", "configdefines", false⟩] from by simp] at h2
  rw [h2]
  rw [show (db.entities ++
        [⟨"XRAPI_ATTR", "dlink", "configdefines", false⟩,
         ⟨"XRAPI_CALL", "dlink", "configdefines", false⟩] : List Entity)
        ++ [⟨"XRAPI_PTR", "dlink", "configdefines", false⟩]
      = db.entities ++
        [⟨"XRAPI_ATTR", "dlink", "configdefines", false⟩,
         ⟨"XRAPI_CALL", "dlink", "configdefines", false⟩,
         ⟨"XRAPI_PTR", "dlink", "configdefines", false⟩] from by simp] at h3
  rw [h3]
  rw [show (db.entities ++
        [⟨"XRAPI_ATTR", "dlink", "configdefines", false⟩,
         ⟨"XRAPI_CALL", "dlink", "configdefines", false⟩,
         ⟨"XRAPI_PTR", "dlink", "configdefines", false⟩] : List Entity)
        ++ [⟨"XR_NO_STDINT_H", "dlink", "configdefines", false⟩]
      = db.entities ++
        [⟨"XRAPI_ATTR", "dlink", "configdefines", false⟩,
         ⟨"XRAPI_CALL", "dlink", "configdefines", false⟩,
         ⟨"XRAPI_PTR", "dlink", "configdefines", false⟩,
         ⟨"XR_NO_STDINT_H", "dlink", "configdefines", false⟩] from by simp] at h4
  rw [h4]

/-- Witness for C6 on the empty database. -/
theorem populateEntities_extraDefines_witness :
    populateEntities {}
      = { entities :=
          [⟨"XRAPI_ATTR", "dlink", "configdefines", false⟩,
           ⟨"XRAPI_CALL", "dlink", "configdefines", false⟩,
           ⟨"XRAPI_PTR", "dlink", "configdefines", false⟩,
           ⟨"XR_NO_STDINT_H", "dlink", "configdefines", false⟩] } :=
  populateEntities_extraDefines {} (by simp)

/-- Claim C7: the OpenXR include-name mapping is the identity function. -/
theorem computeExpectedRefPageFromInclude_identity (entity : String) :
    computeExpectedRefPageFromInclude entity = entity := rfl

/-- Claim C8: two runs of the checker built by makeMacroChecker over equal
enabled-message sets, equal registry contents and equal document line
sequences produce identical diagnostic sequences. -/
theorem checkFile_deterministic (e1 e2 : Finset MessageId)
    (r1 r2 : List (String × TypeInfo)) (d1 d2 : List Line)
    (he : e1 = e2) (hr : r1 = r2) (hd : d1 = d2) :
    checkFile (makeMacroChecker e1 r1) d1 = checkFile (makeMacroChecker e2 r2) d2 := by
  subst he; subst hr; subst hd; rfl

/-- Witness for C8 at a concrete configuration and document. -/
theorem checkFile_deterministic_witness :
    checkFile (makeMacroChecker availableMessages [])
        [Line.blockDelim BlockType.REF_PAGE_LIKE "--"]
      = checkFile (makeMacroChecker availableMessages [])
        [Line.blockDelim BlockType.REF_PAGE_LIKE "--"] :=
  checkFile_deterministic availableMessages availableMessages [] []
    [Line.blockDelim BlockType.REF_PAGE_LIKE "--"]
    [Line.blockDelim BlockType.REF_PAGE_LIKE "--"] rfl rfl rfl

end CheckSpecLinks

namespace CheckOffsets

theorem findIdxAux_none (p : String → Bool) (l : List String)
    (h : ∀ a ∈ l, p a = false) : findIdxAux p l = none := by
  induction l with
  | nil => rfl
  | cons a t ih =>
      simp only [findIdxAux, h a (List.mem_cons_self a t)]
      simp only [if_neg Bool.false_ne_true]
      rw [ih (fun b hb => h b (List.mem_cons_of_mem a hb))]
      rfl

theorem findIdxAux_append_none (p : String → Bool) (l1 l2 : List String)
    (h : ∀ a ∈ l1, p a = false) :
    findIdxAux p (l1 ++ l2) = (findIdxAux p l2).map (· + l1.length) := by
  induction l1 with
  | nil =>
      simp only [List.nil_append, List.length_nil]
      cases findIdxAux p l2 <;> simp
  | cons a t ih =>
      simp only [List.cons_append, findIdxAux, h a (List.mem_cons_self a t),
        if_neg Bool.false_ne_true, List.append_eq]
      rw [ih (fun b hb => h b (List.mem_cons_of_mem a hb))]
      cases findIdxAux p l2
      · simp
      · simp
        omega

theorem findIdxAux_at (x : String) (sect rest : List String) (hx : x ∉ sect) :
    findIdxAux (fun y => y == x) (sect ++ x :: rest) = some sect.length := by
  rw [findIdxAux_append_none _ sect (x :: rest) (by
    intro a ha
    simp only [beq_eq_false_iff_ne, ne_eq]
    rintro rfl
    exact hx ha)]
  simp [findIdxAux]

theorem drop_append_cons (pre : List String) (x : String) (L : List String) :
    (pre ++ x :: L).drop (pre.length + 1) = L := by
  rw [show pre ++ x :: L = (pre ++ [x]) ++ L by simp]
  rw [show pre.length + 1 = (pre ++ [x]).length by simp]
  exact List.drop_left _ _

theorem pyIndex_head_found (pre : List String) (x : String) (rest : List String)
    (hx : x ∉ pre) :
    pyIndex (pre ++ x :: rest) x 0 = some pre.length := by
  unfold pyIndex
  rw [List.drop_zero, findIdxAux_at x pre rest hx]
  rfl

theorem pyIndex_after_found (pre : List String) (x y : String)
    (sect rest : List String) (hy : y ∉ sect) :
    pyIndex (pre ++ x :: (sect ++ y :: rest)) y (pre.length + 1)
      = some (sect.length + (pre.length + 1)) := by
  unfold pyIndex
  rw [drop_append_cons pre x (sect ++ y :: rest), findIdxAux_at y sect rest hy]
  rfl

theorem pyIndex_after_none (pre : List String) (x y : String) (sect : List String)
    (hy : y ∉ sect) :
    pyIndex (pre ++ x :: sect) y (pre.length + 1) = none := by
  unfold pyIndex
  rw [drop_append_cons pre x sect, findIdxAux_none _ sect (by
    intro a ha
    simp only [beq_eq_false_iff_ne, ne_eq]
    rintro rfl
    exact hy ha)]
  rfl

theorem pySlice_section (pre : List String) (x : String) (sect rest : List String) :
    pySlice (pre ++ x :: (sect ++ "" :: rest)) (pre.length + 1)
        (sect.length + (pre.length + 1) - 1)
      = sect.take (sect.length - 1) := by
  unfold pySlice
  rw [drop_append_cons pre x (sect ++ "" :: rest)]
  rw [show sect.length + (pre.length + 1) - 1 - (pre.length + 1) = sect.length - 1 by omega]
  rw [List.take_append_eq_append_take]
  rw [show sect.length - 1 - sect.length = 0 by omega]
  simp

/-- Claim C10: when the `Uniform reflection:` heading is followed by the
section lines `sect` and then an empty terminator line, the uniforms
dictionary returned by compile_and_get_reflection_data is built from only
the first `sect.length - 1` of those lines — the slice
`[start + 1 : end - 1]` excludes the line immediately before the blank
terminator; process_reflection_data_section has the same property for any
heading whose section is terminated by an empty line, while a section
running to the end of the output has all of its lines parsed. -/
theorem reflection_section_drops_last_line :
    (∀ pre sect rest : List String,
       "Uniform reflection:" ∉ pre → "" ∉ sect →
       (pre ++ "Uniform reflection:" :: (sect ++ "" :: rest)).map pyStrip
          = pre ++ "Uniform reflection:" :: (sect ++ "" :: rest) →
       compile_and_get_reflection_data
           (pre ++ "Uniform reflection:" :: (sect ++ "" :: rest))
         = sectionDict (sect.take (sect.length - 1)))
    ∧ (∀ (heading : String) (pre sect rest : List String),
       heading ∉ pre → "" ∉ sect →
       process_reflection_data_section (pre ++ heading :: (sect ++ "" :: rest)) heading
         = sectionDict (sect.take (sect.length - 1)))
    ∧ (∀ (heading : String) (pre sect : List String),
       heading ∉ pre → "" ∉ sect →
       process_reflection_data_section (pre ++ heading :: sect) heading
         = sectionDict sect) := by
  refine ⟨?_, ?_, ?_⟩
  · intro pre sect rest hpre hsect htrim
    unfold compile_and_get_reflection_data
    rw [htrim]
    simp only [pyIndex_head_found pre _ _ hpre,
      pyIndex_after_found pre "Uniform reflection:" "" sect rest hsect,
      Option.bind_eq_bind, Option.some_bind,
      pySlice_section pre "Uniform reflection:" sect rest]
  · intro heading pre sect rest hpre hsect
    unfold process_reflection_data_section
    simp only [pyIndex_head_found pre _ _ hpre,
      pyIndex_after_found pre heading "" sect rest hsect,
      Option.bind_eq_bind, Option.some_bind,
      pySlice_section pre heading sect rest]
  · intro heading pre sect hpre hsect
    unfold process_reflection_data_section
    simp only [pyIndex_head_found pre _ _ hpre,
      pyIndex_after_none pre heading "" sect hsect,
      Option.bind_eq_bind, Option.some_bind,
      drop_append_cons pre heading sect]

/-- Witness for C10: a three-line uniform section followed by the blank
terminator is parsed into the dictionary of its first two lines only. -/
theorem reflection_section_drops_last_line_witness :
    ("Uniform reflection:" ∉ (["shader.frag"] : List String))
    ∧ ("" ∉ (["a: offset 0, type 1406, size 1, index -1, binding -1, stages 16",
              "b: offset 4, type 1406, size 1, index -1, binding -1, stages 16",
              "c: offset 8, type 1406, size 1, index -1, binding -1, stages 16"] : List String))
    ∧ compile_and_get_reflection_data
        (["shader.frag"] ++ "Uniform reflection:" ::
          (["a: offset 0, type 1406, size 1, index -1, binding -1, stages 16",
            "b: offset 4, type 1406, size 1, index -1, binding -1, stages 16",
            "c: offset 8, type 1406, size 1, index -1, binding -1, stages 16"]
           ++ "" :: ["tail"]))
      = sectionDict
          (["a: offset 0, type 1406, size 1, index -1, binding -1, stages 16",
            "b: offset 4, type 1406, size 1, index -1, binding -1, stages 16",
            "c: offset 8, type 1406, size 1, index -1, binding -1, stages 16"].take
           (["a: offset 0, type 1406, size 1, index -1, binding -1, stages 16",
             "b: offset 4, type 1406, size 1, index -1, binding -1, stages 16",
             "c: offset 8, type 1406, size 1, index -1, binding -1, stages 16"].length - 1)) :=
  ⟨by decide, by decide,
   reflection_section_drops_last_line.1 ["shader.frag"]
     ["a: offset 0, type 1406, size 1, index -1, binding -1, stages 16",
      "b: offset 4, type 1406, size 1, index -1, binding -1, stages 16",
      "c: offset 8, type 1406, size 1, index -1, binding -1, stages 16"]
     ["tail"] (by decide) (by decide) (by decide)⟩

end CheckOffsets
